import Mathlib

set_option maxHeartbeats 1000000

/-!
Shallow embedding of the STACKIT Terraform provider sources under verification:
the Argus monitoring-instance resource (stackit/services/argus/instance/resource.go),
the DNS record-set resource and the DNS record-set data source (the two unnamed
dns package files).  Terraform framework values (types.String, types.Bool,
types.Int64, types.Map, types.List) are modelled as explicit null/unknown/value
sums; Go pointers to response fields are modelled as Option; Go maps as
association lists; SDK calls are modelled by oracles (environment records) that
supply each call's result, and each CRUD method is embedded as a function from
its oracle to the trace of SDK calls it makes, the diagnostics it adds, and its
outcome.
-/

namespace StackitProvider

/-- Terraform framework string value (basetypes.StringValue): null, unknown, or a known string. -/
inductive TFString where
  | null
  | unknown
  | value (s : String)
  deriving DecidableEq

/-- Terraform framework bool value. -/
inductive TFBool where
  | null
  | unknown
  | value (b : Bool)
  deriving DecidableEq

/-- Terraform framework int64 value. -/
inductive TFInt64 where
  | null
  | unknown
  | value (n : Int)
  deriving DecidableEq

/-- Models StringValue.ValueString: the known string, or the zero value "" for null/unknown. -/
def TFString.valueString : TFString → String
  | .value s => s
  | _ => ""

/-- Models StringValue.ValueStringPointer: nil for null, otherwise a pointer to the held string
    (the zero value "" for unknown). -/
def TFString.valueStringPointer : TFString → Option String
  | .null => none
  | .unknown => some ""
  | .value s => some s

/-- Models types.StringPointerValue: a nil pointer becomes null, otherwise the pointed-to string. -/
def stringPointerValue : Option String → TFString
  | none => .null
  | some s => .value s

/-- Models types.BoolPointerValue. -/
def boolPointerValue : Option Bool → TFBool
  | none => .null
  | some b => .value b

/-- Models the character escaping performed by Go fmt %q inside the quotes, on the
    printable-ASCII subset relevant here. -/
def goEscapeChar (c : Char) : List Char :=
  if c = '"' then ['\\', '"']
  else if c = '\\' then ['\\', '\\']
  else if c = '\n' then ['\\', 'n']
  else if c = '\t' then ['\\', 't']
  else if c = '\r' then ['\\', 'r']
  else [c]

/-- Models Go fmt.Sprintf %q on a string: the escaped string wrapped in double quotes. -/
def goQuote (s : String) : String :=
  "\"" ++ String.mk (s.toList.map goEscapeChar).flatten ++ "\""

/-- Models StringValue.String() from the terraform-plugin-framework: the human-readable
    rendering, which is attr.NullValueString / attr.UnknownValueString for null/unknown
    and the %q-quoted form for a known value. -/
def TFString.render : TFString → String
  | .null => "<null>"
  | .unknown => "<unknown>"
  | .value s => goQuote s

/-- Terraform framework map value with string elements (types.Map with ElementType StringType),
    elements modelled as an association list. -/
inductive TFMap where
  | null
  | unknown
  | val (elems : List (String × TFString))
  deriving DecidableEq

/-- Models MapValue.Elements(): the element map, empty for null/unknown. -/
def TFMap.elements : TFMap → List (String × TFString)
  | .val l => l
  | _ => []

/-- Terraform framework list value with string elements (types.List with ElementType StringType). -/
inductive TFList where
  | null
  | unknown
  | val (elems : List TFString)
  deriving DecidableEq

/-- Models ListValue.Elements(): the element list, empty for null/unknown. -/
def TFList.elements : TFList → List TFString
  | .val l => l
  | _ => []

/-- Modelled from the spec: core.Separator from the repository's core package, which is not
    under src/.  The spec fixes the import ID format as a comma-separated composite key
    (for example project_id,zone_id,record_set_id), so the separator is the comma. -/
def coreSeparator : Char := ','

/-- Models Go strings.Split on the one-character separator core.Separator. -/
def goSplit (s : String) : List String :=
  (s.toList.splitOn coreSeparator).map String.mk

/-- Models Go strings.Join with the one-character separator core.Separator. -/
def goJoin (parts : List String) : String :=
  String.mk (List.intercalate [coreSeparator] (parts.map String.toList))

/-- Models Go strings.EqualFold by lower-casing both sides (adequate simple case folding
    for the ASCII plan names involved). -/
def equalFold (a b : String) : Bool := a.toLower = b.toLower

/-- Embeds (*instanceResource).ImportState from the Argus instance resource: the identifier
    is split on core.Separator and accepted only as exactly two non-empty parts, which become
    project_id and instance_id; otherwise a diagnostic is added (modelled as none) and no
    attribute is set. -/
def instanceImportState (id : String) : Option (String × String) :=
  match goSplit id with
  | [p, i] => if p = "" ∨ i = "" then none else some (p, i)
  | _ => none

/-- Embeds (*recordSetResource).ImportState from the DNS record-set resource: the identifier
    is split on core.Separator and accepted only as exactly three non-empty parts, which become
    project_id, zone_id and record_set_id; otherwise a diagnostic is added (modelled as none)
    and no attribute is set. -/
def recordSetImportState (id : String) : Option (String × String × String) :=
  match goSplit id with
  | [p, z, rs] => if p = "" ∨ z = "" ∨ rs = "" then none else some (p, z, rs)
  | _ => none

/-- Embeds the Argus instance resource state Model (named Model in package argus). -/
structure ArgusModel where
  Id : TFString
  ProjectId : TFString
  InstanceId : TFString
  Name : TFString
  PlanName : TFString
  PlanId : TFString
  Parameters : TFMap
  DashboardURL : TFString
  IsUpdatable : TFBool
  GrafanaURL : TFString
  GrafanaPublicReadAccess : TFBool
  GrafanaInitialAdminPassword : TFString
  GrafanaInitialAdminUser : TFString
  MetricsRetentionDays : TFInt64
  MetricsRetentionDays5mDownsampling : TFInt64
  MetricsRetentionDays1hDownsampling : TFInt64
  MetricsURL : TFString
  MetricsPushURL : TFString
  TargetsURL : TFString
  AlertingURL : TFString
  LogsURL : TFString
  LogsPushURL : TFString
  JaegerTracesURL : TFString
  JaegerUIURL : TFString
  OtlpTracesURL : TFString
  ZipkinSpansURL : TFString
  deriving DecidableEq

/-- Embeds the SDK argus.Instance sub-struct, with every optional (pointer) field as Option. -/
structure ArgusInstance where
  GrafanaUrl : Option String
  GrafanaPublicReadAccess : Option Bool
  GrafanaAdminPassword : Option String
  GrafanaAdminUser : Option String
  MetricsRetentionTimeRaw : Option Int
  MetricsRetentionTime5m : Option Int
  MetricsRetentionTime1h : Option Int
  MetricsUrl : Option String
  PushMetricsUrl : Option String
  TargetsUrl : Option String
  AlertingUrl : Option String
  LogsUrl : Option String
  LogsPushUrl : Option String
  JaegerTracesUrl : Option String
  JaegerUiUrl : Option String
  OtlpTracesUrl : Option String
  ZipkinSpansUrl : Option String
  deriving DecidableEq

/-- Embeds the SDK argus.InstanceResponse, with every optional (pointer) field as Option
    and the Parameters map as an association list. -/
structure InstanceResponse where
  Id : Option String
  PlanName : Option String
  PlanId : Option String
  Name : Option String
  Parameters : Option (List (String × String))
  IsUpdatable : Option Bool
  DashboardUrl : Option String
  Instance : Option ArgusInstance
  deriving DecidableEq

/-- Outcome of a mapFields call: a Go mapFields either returns nil and leaves the updated
    model behind the pointer (ok), returns an error with the model in whatever state the
    writes so far left it (err, carrying that state, with none standing for a nil model
    pointer), or panics on a nil-pointer dereference. -/
inductive MapOutcome (μ : Type) where
  | ok (m : μ)
  | err (msg : String) (m : Option μ)
  | panics
  deriving DecidableEq

/-- Embeds the write sequence of the Argus mapFields after the instance id has been determined:
    the composite id, instance id, plan and name fields, the parameters map (types.MapValueFrom
    on a map of StringValue with StringType cannot produce error diagnostics, so that branch is
    total here), the top-level optional fields via nil-safe pointer conversions, and, when the
    Instance sub-struct is present, its fields — dereferencing MetricsRetentionTimeRaw,
    MetricsRetentionTime5m and MetricsRetentionTime1h without nil checks, hence panicking when
    one of them is nil. -/
def argusMapWrites (r : InstanceResponse) (model : ArgusModel) (instanceId : String) :
    MapOutcome ArgusModel :=
  let model := { model with
    Id := .value (goJoin [model.ProjectId.valueString, instanceId]),
    InstanceId := .value instanceId,
    PlanName := stringPointerValue r.PlanName,
    PlanId := stringPointerValue r.PlanId,
    Name := stringPointerValue r.Name }
  let model :=
    match r.Parameters with
    | none => { model with Parameters := .null }
    | some ps =>
      { model with
        Parameters := .val (ps.map fun (kv : String × String) => (kv.1, TFString.value kv.2)) }
  let model := { model with
    IsUpdatable := boolPointerValue r.IsUpdatable,
    DashboardURL := stringPointerValue r.DashboardUrl }
  match r.Instance with
  | none => .ok model
  | some i =>
    let model := { model with
      GrafanaURL := stringPointerValue i.GrafanaUrl,
      GrafanaPublicReadAccess := boolPointerValue i.GrafanaPublicReadAccess,
      GrafanaInitialAdminPassword := stringPointerValue i.GrafanaAdminPassword,
      GrafanaInitialAdminUser := stringPointerValue i.GrafanaAdminUser }
    match i.MetricsRetentionTimeRaw with
    | none => .panics
    | some raw =>
      match i.MetricsRetentionTime5m with
      | none => .panics
      | some m5 =>
        match i.MetricsRetentionTime1h with
        | none => .panics
        | some m1 =>
          .ok { model with
            MetricsRetentionDays := .value raw,
            MetricsRetentionDays5mDownsampling := .value m5,
            MetricsRetentionDays1hDownsampling := .value m1,
            MetricsURL := stringPointerValue i.MetricsUrl,
            MetricsPushURL := stringPointerValue i.PushMetricsUrl,
            TargetsURL := stringPointerValue i.TargetsUrl,
            AlertingURL := stringPointerValue i.AlertingUrl,
            LogsURL := stringPointerValue i.LogsUrl,
            LogsPushURL := stringPointerValue i.LogsPushUrl,
            JaegerTracesURL := stringPointerValue i.JaegerTracesUrl,
            JaegerUIURL := stringPointerValue i.JaegerUiUrl,
            OtlpTracesURL := stringPointerValue i.OtlpTracesUrl,
            ZipkinSpansURL := stringPointerValue i.ZipkinSpansUrl }

/-- Embeds mapFields from the Argus instance resource: nil checks on the response and model
    pointers, determination of the instance id with the model's non-empty value taking
    precedence over the response's, then the write sequence. -/
def argusMapFields (r : Option InstanceResponse) (model : Option ArgusModel) :
    MapOutcome ArgusModel :=
  match r with
  | none => .err "response input is nil" model
  | some r =>
    match model with
    | none => .err "model input is nil" none
    | some model =>
      if model.InstanceId.valueString ≠ "" then
        argusMapWrites r model model.InstanceId.valueString
      else
        match r.Id with
        | some i => argusMapWrites r model i
        | none => .err "instance id not present" (some model)

/-- Embeds the SDK argus.CreateInstancePayload; the Parameter map values are the strings the
    provider puts into the interface-typed map. -/
structure CreateInstancePayload where
  Name : Option String
  PlanId : Option String
  Parameter : List (String × String)
  deriving DecidableEq

/-- Embeds the SDK argus.UpdateInstancePayload. -/
structure UpdateInstancePayload where
  Name : Option String
  PlanId : Option String
  Parameter : List (String × String)
  deriving DecidableEq

/-- Embeds toCreatePayload from the Argus instance resource: nil-model check, then a payload
    whose Parameter map sends each key of model.Parameters.Elements() to the String()
    rendering of its element value. -/
def argusToCreatePayload (model : Option ArgusModel) : Except String CreateInstancePayload :=
  match model with
  | none => .error "nil model"
  | some model =>
    .ok { Name := model.Name.valueStringPointer,
          PlanId := model.PlanId.valueStringPointer,
          Parameter := model.Parameters.elements.map fun kv => (kv.1, kv.2.render) }

/-- Embeds toUpdatePayload from the Argus instance resource, identical to the create payload
    construction up to the payload type. -/
def argusToUpdatePayload (model : Option ArgusModel) : Except String UpdateInstancePayload :=
  match model with
  | none => .error "nil model"
  | some model =>
    .ok { Name := model.Name.valueStringPointer,
          PlanId := model.PlanId.valueStringPointer,
          Parameter := model.Parameters.elements.map fun kv => (kv.1, kv.2.render) }

/-- Embeds the DNS record-set state Model (named Model in package dns); the Go field Type
    is spelled Type' because Type is reserved in Lean. -/
structure DnsModel where
  Id : TFString
  RecordSetId : TFString
  ZoneId : TFString
  ProjectId : TFString
  Active : TFBool
  Comment : TFString
  Name : TFString
  Records : TFList
  TTL : TFInt64
  Type' : TFString
  Error : TFString
  State : TFString
  deriving DecidableEq

/-- Embeds the SDK dns.Record: only its optional Content field is used by the provider. -/
structure DnsRecord where
  Content : Option String
  deriving DecidableEq

/-- Embeds the SDK dns.RecordSet (the Rrset sub-struct), optional fields as Option;
    the Go field Type is spelled Type'. -/
structure DnsRrset where
  Id : Option String
  Active : Option Bool
  Comment : Option String
  Error : Option String
  Name : Option String
  State : Option String
  Ttl : Option Int
  Type' : Option String
  Records : Option (List DnsRecord)
  deriving DecidableEq

/-- Embeds the SDK dns.RecordSetResponse with its optional Rrset pointer. -/
structure RecordSetResponse where
  Rrset : Option DnsRrset
  deriving DecidableEq

/-- Modelled from the spec: conversion.ToTypeInt64 from the repository's conversion package,
    which is not under src/.  Per the spec's uniform response-to-state field mapping with
    nil-check guards, it wraps an optional int32 response field as a Terraform Int64 value,
    nil becoming null. -/
def toTypeInt64 : Option Int → TFInt64
  | none => .null
  | some n => .value n

/-- Modelled from the spec: conversion.ToPtrInt32 from the repository's conversion package,
    which is not under src/.  It converts a Terraform Int64 value to an optional int32
    payload field, null and unknown becoming nil. -/
def toPtrInt32 : TFInt64 → Option Int
  | .null => none
  | .unknown => none
  | .value n => some n

/-- Embeds the write sequence of the DNS mapFields after the record-set id has been
    determined: the records list (types.ListValue on StringValue elements with StringType
    cannot produce error diagnostics, so that branch is total here), then the composite id
    joined from project_id, zone_id and the determined record-set id, then the remaining
    fields via nil-safe pointer conversions — model.RecordSetId itself is overwritten from
    the response's Rrset.Id, not from the determined id. -/
def dnsMapWrites (recordSet : DnsRrset) (model : DnsModel) (recordSetId : String) :
    MapOutcome DnsModel :=
  let model :=
    match recordSet.Records with
    | none => { model with Records := .null }
    | some records =>
      { model with
        Records := .val (records.map fun (rec : DnsRecord) => stringPointerValue rec.Content) }
  let model := { model with
    Id := .value (goJoin [model.ProjectId.valueString, model.ZoneId.valueString, recordSetId]) }
  .ok { model with
    RecordSetId := stringPointerValue recordSet.Id,
    Active := boolPointerValue recordSet.Active,
    Comment := stringPointerValue recordSet.Comment,
    Error := stringPointerValue recordSet.Error,
    Name := stringPointerValue recordSet.Name,
    State := stringPointerValue recordSet.State,
    TTL := toTypeInt64 recordSet.Ttl,
    Type' := stringPointerValue recordSet.Type' }

/-- Embeds mapFields from the DNS record-set resource: nil checks on the response, its Rrset
    and the model pointers, determination of the record-set id with the model's non-empty
    value taking precedence over the response's, then the write sequence. -/
def dnsMapFields (resp : Option RecordSetResponse) (model : Option DnsModel) :
    MapOutcome DnsModel :=
  match resp with
  | none => .err "response input is nil" model
  | some resp =>
    match resp.Rrset with
    | none => .err "response input is nil" model
    | some recordSet =>
      match model with
      | none => .err "model input is nil" none
      | some model =>
        if model.RecordSetId.valueString ≠ "" then
          dnsMapWrites recordSet model model.RecordSetId.valueString
        else
          match recordSet.Id with
          | some i => dnsMapWrites recordSet model i
          | none => .err "record set id not present" (some model)

/-- Embeds the SDK dns.RecordPayload. -/
structure RecordPayload where
  Content : Option String
  deriving DecidableEq

/-- Embeds the SDK dns.CreateRecordSetPayload; the Go field Type is spelled Type'. -/
structure CreateRecordSetPayload where
  Comment : Option String
  Name : Option String
  Records : List RecordPayload
  Ttl : Option Int
  Type' : Option String
  deriving DecidableEq

/-- Embeds the SDK dns.UpdateRecordSetPayload (no Type field). -/
structure UpdateRecordSetPayload where
  Comment : Option String
  Name : Option String
  Records : List RecordPayload
  Ttl : Option Int
  deriving DecidableEq

/-- Embeds toCreatePayload from the DNS record-set resource: nil-model check, then each
    element of model.Records.Elements() — which is a StringValue by construction, so the
    type-assertion failure branch of the Go loop is unreachable here — contributes a
    RecordPayload with its ValueStringPointer as Content. -/
def dnsToCreatePayload (model : Option DnsModel) : Except String CreateRecordSetPayload :=
  match model with
  | none => .error "nil model"
  | some model =>
    .ok { Comment := model.Comment.valueStringPointer,
          Name := model.Name.valueStringPointer,
          Records := model.Records.elements.map fun rec => ⟨rec.valueStringPointer⟩,
          Ttl := toPtrInt32 model.TTL,
          Type' := model.Type'.valueStringPointer }

/-- Embeds toUpdatePayload from the DNS record-set resource, identical to the create payload
    construction except that the payload carries no Type field. -/
def dnsToUpdatePayload (model : Option DnsModel) : Except String UpdateRecordSetPayload :=
  match model with
  | none => .error "nil model"
  | some model =>
    .ok { Comment := model.Comment.valueStringPointer,
          Name := model.Name.valueStringPointer,
          Records := model.Records.elements.map fun rec => ⟨rec.valueStringPointer⟩,
          Ttl := toPtrInt32 model.TTL }

deriving instance DecidableEq for Except

/-- SDK calls a CRUD method can make; wait-handler calls carry the timeout (in minutes)
    the provider passes to SetTimeout. -/
inductive SdkCall where
  | getPlans
  | createInstance
  | updateInstance
  | deleteInstance
  | getInstance
  | createInstanceWait (timeoutMinutes : Nat)
  | updateInstanceWait (timeoutMinutes : Nat)
  | deleteInstanceWait (timeoutMinutes : Nat)
  | createRecordSet
  | getRecordSet
  | updateRecordSet
  | deleteRecordSet
  | createRecordSetWait (timeoutMinutes : Nat)
  | updateRecordSetWait (timeoutMinutes : Nat)
  | deleteRecordSetWait (timeoutMinutes : Nat)
  deriving DecidableEq

/-- Outcome of a CRUD method: it set the state to a model, completed without a state to set
    (delete), returned early without setting state (aborted), or panicked. -/
inductive OpResult (μ : Type) where
  | stateSet (m : μ)
  | completed
  | aborted
  | panicked
  deriving DecidableEq

/-- Embeds the SDK argus.Plan with its optional Name and PlanId. -/
structure ArgusPlan where
  Name : Option String
  PlanId : Option String
  deriving DecidableEq

/-- Embeds the SDK argus.PlansResponse with its optional Plans slice pointer
    (loadPlanId dereferences it without a nil check). -/
structure PlansResponse where
  Plans : Option (List ArgusPlan)
  deriving DecidableEq

/-- Embeds the loop body of loadPlanId: the first plan whose Name is non-nil, matches the
    wanted plan name under strings.EqualFold and has a non-nil PlanId supplies the plan id
    (the Go loop breaks there); all other plans only extend the availability message. -/
def findPlanId : List ArgusPlan → String → Option String
  | [], _ => none
  | p :: rest, planName =>
    match p.Name with
    | none => findPlanId rest planName
    | some n =>
      if equalFold n planName then
        match p.PlanId with
        | some pid => some pid
        | none => findPlanId rest planName
      else
        findPlanId rest planName

/-- Result of the loadPlanId helper: it panics on a nil Plans slice, or finishes with the
    diagnostics and model it leaves behind its pointer arguments. -/
inductive LoadPlanResult where
  | panicked
  | done (diags : List String) (model : ArgusModel)
  deriving DecidableEq

/-- Embeds (*instanceResource).loadPlanId: on a GetPlans error it only adds a diagnostic;
    otherwise it dereferences res.Plans (panicking when nil), writes the matching plan's id
    into model.PlanId, and adds an Invalid plan_name diagnostic when model.PlanId is still
    empty afterwards. -/
def loadPlanId (res : Except String PlansResponse) (diags : List String) (model : ArgusModel) :
    LoadPlanResult :=
  match res with
  | .error e => .done (diags ++ ["Failed to list argus plans: " ++ e]) model
  | .ok resp =>
    match resp.Plans with
    | none => .panicked
    | some plans =>
      let planName := model.PlanName.valueString
      let model :=
        match findPlanId plans planName with
        | some pid => { model with PlanId := stringPointerValue (some pid) }
        | none => model
      if model.PlanId.valueString = "" then
        .done (diags ++ ["Invalid plan_name"]) model
      else
        .done diags model

/-- Oracle for one Argus Create invocation: the plan-get diagnostics and model, and the
    results of the GetPlans, CreateInstance (its InstanceId field) and wait-handler calls
    (ok none models a wait result that is not an InstanceResponse). -/
structure ArgusCreateEnv where
  PlanDiags : List String
  Plan : ArgusModel
  GetPlans : Except String PlansResponse
  CreateInstance : Except String (Option String)
  Wait : Except String (Option InstanceResponse)
  deriving DecidableEq

/-- Embeds (*instanceResource).Create as a trace function.  The local diags variable from
    req.Plan.Get is kept distinct from resp.Diagnostics exactly as in the source: after
    loadPlanId writes its errors into resp.Diagnostics, the guard tests the stale local
    diags (necessarily empty here), so its branch is dead and, were it taken, its
    LogAndAddError would write into the discarded local diags, not into resp.Diagnostics. -/
def argusCreate (env : ArgusCreateEnv) :
    List SdkCall × List String × OpResult ArgusModel :=
  let diags := env.PlanDiags
  let respDiags := env.PlanDiags
  if respDiags ≠ [] then ([], respDiags, .aborted)
  else
    match loadPlanId env.GetPlans respDiags env.Plan with
    | .panicked => ([.getPlans], respDiags, .panicked)
    | .done respDiags model =>
      if diags ≠ [] then ([.getPlans], respDiags, .aborted)
      else
        match argusToCreatePayload (some model) with
        | .error e => ([.getPlans], respDiags ++ ["Error creating instance: " ++ e], .aborted)
        | .ok _payload =>
          match env.CreateInstance with
          | .error e =>
            ([.getPlans, .createInstance],
             respDiags ++ ["Error creating instance: Calling API: " ++ e], .aborted)
          | .ok instanceId =>
            match instanceId with
            | none =>
              ([.getPlans, .createInstance],
               respDiags ++ ["Error creating instance: API did not return an instance id"],
               .aborted)
            | some iid =>
              if iid = "" then
                ([.getPlans, .createInstance],
                 respDiags ++ ["Error creating instance: API did not return an instance id"],
                 .aborted)
              else
                match env.Wait with
                | .error e =>
                  ([.getPlans, .createInstance, .createInstanceWait 20],
                   respDiags ++ ["Error creating instance: Instance creation waiting: " ++ e],
                   .aborted)
                | .ok none =>
                  ([.getPlans, .createInstance, .createInstanceWait 20],
                   respDiags ++ ["Error creating instance: Wait result conversion"], .aborted)
                | .ok (some got) =>
                  match argusMapFields (some got) (some model) with
                  | .err e _ =>
                    ([.getPlans, .createInstance, .createInstanceWait 20],
                     respDiags ++ ["Error mapping fields: " ++ e], .aborted)
                  | .panics =>
                    ([.getPlans, .createInstance, .createInstanceWait 20], respDiags, .panicked)
                  | .ok m2 =>
                    ([.getPlans, .createInstance, .createInstanceWait 20], respDiags,
                     .stateSet m2)

/-- Oracle for one Argus Update invocation. -/
structure ArgusUpdateEnv where
  PlanDiags : List String
  Plan : ArgusModel
  GetPlans : Except String PlansResponse
  Update : Except String Unit
  Wait : Except String (Option InstanceResponse)
  deriving DecidableEq

/-- Embeds (*instanceResource).Update as a trace function, with the same stale-diags guard
    after loadPlanId as in Create. -/
def argusUpdate (env : ArgusUpdateEnv) :
    List SdkCall × List String × OpResult ArgusModel :=
  let diags := env.PlanDiags
  let respDiags := env.PlanDiags
  if respDiags ≠ [] then ([], respDiags, .aborted)
  else
    match loadPlanId env.GetPlans respDiags env.Plan with
    | .panicked => ([.getPlans], respDiags, .panicked)
    | .done respDiags model =>
      if diags ≠ [] then ([.getPlans], respDiags, .aborted)
      else
        match argusToUpdatePayload (some model) with
        | .error e => ([.getPlans], respDiags ++ ["Error updating instance: " ++ e], .aborted)
        | .ok _payload =>
          match env.Update with
          | .error e =>
            ([.getPlans, .updateInstance],
             respDiags ++ ["Error updating instance: " ++ e], .aborted)
          | .ok _ =>
            match env.Wait with
            | .error e =>
              ([.getPlans, .updateInstance, .updateInstanceWait 20],
               respDiags ++ ["Error updating instance: Instance update waiting: " ++ e],
               .aborted)
            | .ok none =>
              ([.getPlans, .updateInstance, .updateInstanceWait 20],
               respDiags ++ ["Error updating instance: Wait result conversion"], .aborted)
            | .ok (some got) =>
              match argusMapFields (some got) (some model) with
              | .err e _ =>
                ([.getPlans, .updateInstance, .updateInstanceWait 20],
                 respDiags ++ ["Error mapping fields in update: " ++ e], .aborted)
              | .panics =>
                ([.getPlans, .updateInstance, .updateInstanceWait 20], respDiags, .panicked)
              | .ok m2 =>
                ([.getPlans, .updateInstance, .updateInstanceWait 20], respDiags, .stateSet m2)

/-- Oracle for one Argus Delete invocation. -/
structure ArgusDeleteEnv where
  StateDiags : List String
  State : ArgusModel
  Delete : Except String Unit
  Wait : Except String Unit
  deriving DecidableEq

/-- Embeds (*instanceResource).Delete as a trace function: DeleteInstance, then on success
    the DeleteInstanceWaitHandler with a 10-minute timeout. -/
def argusDelete (env : ArgusDeleteEnv) :
    List SdkCall × List String × OpResult ArgusModel :=
  if env.StateDiags ≠ [] then ([], env.StateDiags, .aborted)
  else
    match env.Delete with
    | .error e => ([.deleteInstance], ["Error deleting instance: " ++ e], .aborted)
    | .ok _ =>
      match env.Wait with
      | .error e =>
        ([.deleteInstance, .deleteInstanceWait 10],
         ["Error deleting instance: Instance deletion waiting: " ++ e], .aborted)
      | .ok _ => ([.deleteInstance, .deleteInstanceWait 10], [], .completed)

/-- Oracle for one DNS record-set Create invocation. -/
structure DnsCreateEnv where
  PlanDiags : List String
  Plan : DnsModel
  CreateRecordSet : Except String RecordSetResponse
  Wait : Except String (Option RecordSetResponse)
  deriving DecidableEq

/-- Embeds (*recordSetResource).Create as a trace function: the guard after CreateRecordSet
    also aborts when the response's Rrset or its Id is nil, then the
    CreateRecordSetWaitHandler runs with a 1-minute timeout, then mapFields. -/
def dnsCreate (env : DnsCreateEnv) :
    List SdkCall × List String × OpResult DnsModel :=
  if env.PlanDiags ≠ [] then ([], env.PlanDiags, .aborted)
  else
    match dnsToCreatePayload (some env.Plan) with
    | .error e => ([], ["Error creating recordset: Creating API payload: " ++ e], .aborted)
    | .ok _payload =>
      match env.CreateRecordSet with
      | .error e => ([.createRecordSet], ["Error creating recordset: Calling API: " ++ e], .aborted)
      | .ok r =>
        match r.Rrset with
        | none => ([.createRecordSet], ["Error creating recordset: Calling API"], .aborted)
        | some rr =>
          match rr.Id with
          | none => ([.createRecordSet], ["Error creating recordset: Calling API"], .aborted)
          | some _ =>
            match env.Wait with
            | .error e =>
              ([.createRecordSet, .createRecordSetWait 1],
               ["Error creating recordset: Instance creation waiting: " ++ e], .aborted)
            | .ok none =>
              ([.createRecordSet, .createRecordSetWait 1],
               ["Error creating recordset: Wait result conversion"], .aborted)
            | .ok (some got) =>
              match dnsMapFields (some got) (some env.Plan) with
              | .err e _ =>
                ([.createRecordSet, .createRecordSetWait 1],
                 ["Error mapping fields: " ++ e], .aborted)
              | .panics => ([.createRecordSet, .createRecordSetWait 1], [], .panicked)
              | .ok m2 => ([.createRecordSet, .createRecordSetWait 1], [], .stateSet m2)

/-- Oracle for one DNS record-set Update invocation; after a successful wait the method
    fetches the updated record set with GetRecordSet. -/
structure DnsUpdateEnv where
  PlanDiags : List String
  Plan : DnsModel
  Update : Except String Unit
  Wait : Except String (Option RecordSetResponse)
  Get : Except String RecordSetResponse
  deriving DecidableEq

/-- Embeds (*recordSetResource).Update as a trace function: UpdateRecordSet, the
    UpdateRecordSetWaitHandler with a 1-minute timeout, then a GetRecordSet fetch of the
    updated record set, then mapFields on the fetched response. -/
def dnsUpdate (env : DnsUpdateEnv) :
    List SdkCall × List String × OpResult DnsModel :=
  if env.PlanDiags ≠ [] then ([], env.PlanDiags, .aborted)
  else
    match dnsToUpdatePayload (some env.Plan) with
    | .error e =>
      ([], ["Error updating recordset: Could not create API payload: " ++ e], .aborted)
    | .ok _payload =>
      match env.Update with
      | .error e => ([.updateRecordSet], ["Error updating recordset: " ++ e], .aborted)
      | .ok _ =>
        match env.Wait with
        | .error e =>
          ([.updateRecordSet, .updateRecordSetWait 1],
           ["Error updating recordset: Instance update waiting: " ++ e], .aborted)
        | .ok none =>
          ([.updateRecordSet, .updateRecordSetWait 1],
           ["Error updating recordset: Wait result conversion"], .aborted)
        | .ok (some _got) =>
          match env.Get with
          | .error e =>
            ([.updateRecordSet, .updateRecordSetWait 1, .getRecordSet],
             ["Error reading updated data: " ++ e], .aborted)
          | .ok fetched =>
            match dnsMapFields (some fetched) (some env.Plan) with
            | .err e _ =>
              ([.updateRecordSet, .updateRecordSetWait 1, .getRecordSet],
               ["Error mapping fields in update: " ++ e], .aborted)
            | .panics =>
              ([.updateRecordSet, .updateRecordSetWait 1, .getRecordSet], [], .panicked)
            | .ok m2 =>
              ([.updateRecordSet, .updateRecordSetWait 1, .getRecordSet], [], .stateSet m2)

/-- Oracle for one DNS record-set Delete invocation. -/
structure DnsDeleteEnv where
  StateDiags : List String
  State : DnsModel
  Delete : Except String Unit
  Wait : Except String Unit
  deriving DecidableEq

/-- Embeds (*recordSetResource).Delete as a trace function.  The source adds a diagnostic
    when DeleteRecordSet fails but does not return there, so the
    DeleteRecordSetWaitHandler (1-minute timeout) is invoked unconditionally afterwards. -/
def dnsDelete (env : DnsDeleteEnv) :
    List SdkCall × List String × OpResult DnsModel :=
  if env.StateDiags ≠ [] then ([], env.StateDiags, .aborted)
  else
    let respDiags :=
      match env.Delete with
      | .error e => ["Error deleting recordset: " ++ e]
      | .ok _ => []
    match env.Wait with
    | .error e =>
      ([.deleteRecordSet, .deleteRecordSetWait 1],
       respDiags ++ ["Error deleting record set: Instance deletion waiting: " ++ e], .aborted)
    | .ok _ => ([.deleteRecordSet, .deleteRecordSetWait 1], respDiags, .completed)

/-- Oracle for one DNS record-set data-source Read invocation. -/
structure DnsDataReadEnv where
  ConfigDiags : List String
  Config : DnsModel
  Get : Except String RecordSetResponse
  deriving DecidableEq

/-- Embeds (*recordSetDataSource).Read as a trace function: GetRecordSet on the configured
    project_id, zone_id and record_set_id, then mapFields onto the configuration model. -/
def dnsDataRead (env : DnsDataReadEnv) :
    List SdkCall × List String × OpResult DnsModel :=
  if env.ConfigDiags ≠ [] then ([], env.ConfigDiags, .aborted)
  else
    match env.Get with
    | .error e => ([.getRecordSet], ["Unable to Read record set: " ++ e], .aborted)
    | .ok resp =>
      match dnsMapFields (some resp) (some env.Config) with
      | .err e _ => ([.getRecordSet], ["Mapping fields: " ++ e], .aborted)
      | .panics => ([.getRecordSet], [], .panicked)
      | .ok st => ([.getRecordSet], [], .stateSet st)

/-- Argus model with every attribute null, a concrete base input. -/
def emptyArgusModel : ArgusModel :=
  { Id := .null, ProjectId := .null, InstanceId := .null, Name := .null, PlanName := .null,
    PlanId := .null, Parameters := .null, DashboardURL := .null, IsUpdatable := .null,
    GrafanaURL := .null, GrafanaPublicReadAccess := .null, GrafanaInitialAdminPassword := .null,
    GrafanaInitialAdminUser := .null, MetricsRetentionDays := .null,
    MetricsRetentionDays5mDownsampling := .null, MetricsRetentionDays1hDownsampling := .null,
    MetricsURL := .null, MetricsPushURL := .null, TargetsURL := .null, AlertingURL := .null,
    LogsURL := .null, LogsPushURL := .null, JaegerTracesURL := .null, JaegerUIURL := .null,
    OtlpTracesURL := .null, ZipkinSpansURL := .null }

/-- DNS model with every attribute null, a concrete base input (a fresh model). -/
def emptyDnsModel : DnsModel :=
  { Id := .null, RecordSetId := .null, ZoneId := .null, ProjectId := .null, Active := .null,
    Comment := .null, Name := .null, Records := .null, TTL := .null, Type' := .null,
    Error := .null, State := .null }

/-- Argus Instance sub-struct with every optional field nil. -/
def emptyArgusInstance : ArgusInstance :=
  { GrafanaUrl := none, GrafanaPublicReadAccess := none, GrafanaAdminPassword := none,
    GrafanaAdminUser := none, MetricsRetentionTimeRaw := none, MetricsRetentionTime5m := none,
    MetricsRetentionTime1h := none, MetricsUrl := none, PushMetricsUrl := none,
    TargetsUrl := none, AlertingUrl := none, LogsUrl := none, LogsPushUrl := none,
    JaegerTracesUrl := none, JaegerUiUrl := none, OtlpTracesUrl := none,
    ZipkinSpansUrl := none }

/-- DNS Rrset with every optional field nil. -/
def emptyRrset : DnsRrset :=
  { Id := none, Active := none, Comment := none, Error := none, Name := none, State := none,
    Ttl := none, Type' := none, Records := none }

/-- Concrete Argus Create oracle in which the GetPlans SDK call fails and all later SDK
    calls are reached. -/
def c1Env : ArgusCreateEnv :=
  { PlanDiags := [],
    Plan := { emptyArgusModel with
              ProjectId := .value "p", Name := .value "n", PlanName := .value "plan" },
    GetPlans := .error "boom",
    CreateInstance := .ok (some "inst-1"),
    Wait := .error "w" }

/-- Concrete InstanceResponse whose Instance sub-struct is non-nil but whose metrics
    retention fields are all nil. -/
def c2Response : InstanceResponse :=
  { Id := some "inst-1", PlanName := none, PlanId := none, Name := none, Parameters := none,
    IsUpdatable := none, DashboardUrl := none, Instance := some emptyArgusInstance }

/-- Concrete DNS Delete oracle in which the DeleteRecordSet SDK call fails and the wait
    handler succeeds. -/
def c3Env : DnsDeleteEnv :=
  { StateDiags := [],
    State := { emptyDnsModel with
               ProjectId := .value "p", ZoneId := .value "z", RecordSetId := .value "rs" },
    Delete := .error "api down",
    Wait := .ok () }

/-- Projection of a MapOutcome to its ok model, if any. -/
def mapOk {μ : Type} : MapOutcome μ → Option μ
  | .ok m => some m
  | _ => none

/-- Error condition of the claim for the Argus mapFields: the response is nil, the model is
    nil, or no instance id is available from either (the model's is empty and the response's
    is nil). -/
def argusMapErrCond (r : Option InstanceResponse) (m : Option ArgusModel) : Prop :=
  r = none ∨ m = none ∨
    ∃ rr mm, r = some rr ∧ m = some mm ∧ mm.InstanceId.valueString = "" ∧ rr.Id = none

/-- Error condition of the claim for the DNS mapFields: the response or its Rrset is nil,
    the model is nil, or no record-set id is available from either. -/
def dnsMapErrCond (resp : Option RecordSetResponse) (m : Option DnsModel) : Prop :=
  resp = none ∨ (∃ q, resp = some q ∧ q.Rrset = none) ∨ m = none ∨
    ∃ q rr mm, resp = some q ∧ q.Rrset = some rr ∧ m = some mm ∧
      mm.RecordSetId.valueString = "" ∧ rr.Id = none

/-- The Argus Create reached a successful CreateInstance with a non-empty instance id
    (and nothing earlier panicked or aborted for non-SDK reasons). -/
def argusCreateLaunched (env : ArgusCreateEnv) : Prop :=
  env.PlanDiags = [] ∧ (∀ q, env.GetPlans = .ok q → q.Plans ≠ none) ∧
    ∃ iid, env.CreateInstance = .ok (some iid) ∧ iid ≠ ""

/-- The Argus Update reached a successful UpdateInstance call. -/
def argusUpdateLaunched (env : ArgusUpdateEnv) : Prop :=
  env.PlanDiags = [] ∧ (∀ q, env.GetPlans = .ok q → q.Plans ≠ none) ∧ env.Update = .ok ()

/-- The Argus Delete reached a successful DeleteInstance call. -/
def argusDeleteLaunched (env : ArgusDeleteEnv) : Prop :=
  env.StateDiags = [] ∧ env.Delete = .ok ()

/-- The DNS Create reached a successful CreateRecordSet call whose response carries a
    record-set id. -/
def dnsCreateLaunched (env : DnsCreateEnv) : Prop :=
  env.PlanDiags = [] ∧
    ∃ r rr i, env.CreateRecordSet = .ok r ∧ r.Rrset = some rr ∧ rr.Id = some i

/-- The DNS Update reached a successful UpdateRecordSet call. -/
def dnsUpdateLaunched (env : DnsUpdateEnv) : Prop :=
  env.PlanDiags = [] ∧ env.Update = .ok ()

/-- The DNS Delete reached a successful DeleteRecordSet call. -/
def dnsDeleteLaunched (env : DnsDeleteEnv) : Prop :=
  env.StateDiags = [] ∧ env.Delete = .ok ()

/-- Concrete Argus model with one parameter whose stored string value is b. -/
def c5Model : ArgusModel :=
  { emptyArgusModel with
    Name := .value "nm", PlanId := .value "pid", Parameters := .val [("a", .value "b")] }

/-- Concrete DNS response whose Rrset carries the id j. -/
def c7Response : RecordSetResponse := { Rrset := some { emptyRrset with Id := some "j" } }

/-- Concrete DNS model already holding the record-set id x, different from the response's j. -/
def c7Model : DnsModel :=
  { emptyDnsModel with
    ProjectId := .value "p", ZoneId := .value "z", RecordSetId := .value "x" }

/-- Concrete Argus response carrying only an instance id. -/
def c7wResponse : InstanceResponse :=
  { Id := some "i1", PlanName := none, PlanId := none, Name := none, Parameters := none,
    IsUpdatable := none, DashboardUrl := none, Instance := none }

/-- Concrete Argus model holding only a project id. -/
def c7wModel : ArgusModel := { emptyArgusModel with ProjectId := .value "p1" }

/-- The Argus model c7wModel after mapping c7wResponse onto it. -/
def c7wMapped : ArgusModel :=
  { emptyArgusModel with
    ProjectId := .value "p1", Id := .value "p1,i1", InstanceId := .value "i1" }

/-- Concrete Argus Delete oracle in which every SDK call succeeds. -/
def c8Env : ArgusDeleteEnv :=
  { StateDiags := [], State := emptyArgusModel, Delete := .ok (), Wait := .ok () }

/-- Concrete DNS Rrset with id, records, ttl, name and comment all present. -/
def c9Rrset : DnsRrset :=
  { emptyRrset with
    Id := some "r1", Records := some [{ Content := some "1.2.3.4" }], Ttl := some 300,
    Name := some "example.com", Comment := some "hi" }

/-- Concrete DNS data-source Read oracle whose GetRecordSet call succeeds. -/
def c10Env : DnsDataReadEnv :=
  { ConfigDiags := [],
    Config := { emptyDnsModel with
                ProjectId := .value "p", ZoneId := .value "z", RecordSetId := .value "r" },
    Get := .ok { Rrset := some { emptyRrset with Id := some "r" } } }

end StackitProvider

namespace StackitProvider

/-- C1: in the Argus instance Create, a failing GetPlans call adds its diagnostic to
    resp.Diagnostics, but the subsequent guard reads the stale local diags from req.Plan.Get,
    so the method does not return: it builds the payload and still calls CreateInstance (and
    the wait handler).  Evaluated at a concrete oracle whose GetPlans call fails. -/
theorem argusCreate_continues_after_plan_load_failure :
    (argusCreate c1Env).1 = [.getPlans, .createInstance, .createInstanceWait 20] ∧
      (argusCreate c1Env).2.1 =
        ["Failed to list argus plans: boom",
         "Error creating instance: Instance creation waiting: w"] :=
  ⟨rfl, rfl⟩

/-- C2: the Argus mapFields dereferences the MetricsRetentionTimeRaw, MetricsRetentionTime5m
    and MetricsRetentionTime1h pointers of a non-nil Instance sub-struct without nil checks,
    so on a response whose Instance is present but whose retention fields are nil it panics
    instead of mapping the response. -/
theorem argusMapFields_nil_retention_panics :
    argusMapFields (some c2Response) (some emptyArgusModel) = .panics :=
  rfl

theorem valueStringPointer_stringPointerValue (o : Option String) :
    (stringPointerValue o).valueStringPointer = o := by
  cases o <;> rfl

theorem string_mk_toList (s : String) : String.mk s.toList = s := by
  cases s
  rfl

theorem goSplit_goJoin (parts : List String) (h1 : parts ≠ [])
    (h2 : ∀ p ∈ parts, coreSeparator ∉ p.toList) :
    goSplit (goJoin parts) = parts := by
  unfold goSplit goJoin
  have htl : (String.mk (List.intercalate [coreSeparator] (parts.map String.toList))).toList
      = List.intercalate [coreSeparator] (parts.map String.toList) := rfl
  rw [htl, List.splitOn_intercalate]
  · rw [List.map_map]
    have : ∀ p ∈ parts, (String.mk ∘ String.toList) p = p := fun p _ => string_mk_toList p
    calc parts.map (String.mk ∘ String.toList) = parts.map id := List.map_congr_left this
      _ = parts := List.map_id parts
  · intro l hl
    obtain ⟨p, hp, rfl⟩ := List.mem_map.mp hl
    exact h2 p hp
  · simpa using h1

theorem instanceImportState_goJoin (a b : String) (ha : a ≠ "") (hb : b ≠ "")
    (ha2 : coreSeparator ∉ a.toList) (hb2 : coreSeparator ∉ b.toList) :
    instanceImportState (goJoin [a, b]) = some (a, b) := by
  unfold instanceImportState
  rw [goSplit_goJoin [a, b] (by simp) (by simpa using ⟨ha2, hb2⟩)]
  simp [ha, hb]

theorem recordSetImportState_goJoin (a b c : String) (ha : a ≠ "") (hb : b ≠ "") (hc : c ≠ "")
    (ha2 : coreSeparator ∉ a.toList) (hb2 : coreSeparator ∉ b.toList)
    (hc2 : coreSeparator ∉ c.toList) :
    recordSetImportState (goJoin [a, b, c]) = some (a, b, c) := by
  unfold recordSetImportState
  rw [goSplit_goJoin [a, b, c] (by simp) (by simpa using ⟨ha2, hb2, hc2⟩)]
  simp [ha, hb, hc]

/-- C4: an import identifier sets the key attributes if and only if splitting it on the
    separator yields exactly two (Argus instance: project_id, instance_id) or exactly three
    (DNS record set: project_id, zone_id, record_set_id) parts, all non-empty, and the
    attributes set are exactly those parts; every other identifier yields a diagnostic and
    sets nothing (modelled by none). -/
theorem importState_accepts_exactly_full_nonempty_splits (s : String) :
    ((instanceImportState s).isSome ↔
      ((goSplit s).length = 2 ∧ ∀ part ∈ goSplit s, part ≠ "")) ∧
    (∀ p i, instanceImportState s = some (p, i) → goSplit s = [p, i]) ∧
    ((recordSetImportState s).isSome ↔
      ((goSplit s).length = 3 ∧ ∀ part ∈ goSplit s, part ≠ "")) ∧
    (∀ p z rs, recordSetImportState s = some (p, z, rs) → goSplit s = [p, z, rs]) := by
  unfold instanceImportState recordSetImportState
  rcases h : goSplit s with _ | ⟨a, _ | ⟨b, _ | ⟨c, _ | ⟨d, t⟩⟩⟩⟩ <;>
    simp only [List.length_nil, List.length_cons, List.mem_cons, List.mem_singleton] <;>
    refine ⟨?_, ?_, ?_, ?_⟩ <;> simp

/-- Witness for C4 at the concrete identifiers p,i and p,z,r. -/
theorem importState_accepts_exactly_full_nonempty_splits_witness :
    goSplit "p,i" = ["p", "i"] ∧ goSplit "p,z,r" = ["p", "z", "r"] :=
  ⟨(importState_accepts_exactly_full_nonempty_splits "p,i").2.1 "p" "i" (by decide),
   (importState_accepts_exactly_full_nonempty_splits "p,z,r").2.2.2 "p" "z" "r" (by decide)⟩

/-- C3: when the DeleteRecordSet SDK call fails, the DNS record-set Delete adds a diagnostic
    but, lacking a return in that branch, still invokes the DeleteRecordSetWaitHandler.
    Evaluated at a concrete oracle whose DeleteRecordSet call fails. -/
theorem dnsDelete_calls_wait_after_delete_error :
    (dnsDelete c3Env).1 = [.deleteRecordSet, .deleteRecordSetWait 1] ∧
      (dnsDelete c3Env).2.1 = ["Error deleting recordset: api down"] :=
  ⟨rfl, rfl⟩

/-- C5 counterexample: toCreatePayload renders the parameter value b through the framework's
    String() method, so the payload maps the key a to the quoted string and not to the stored
    value b; the claim's unquoted reading is false at this concrete model. -/
theorem argusPayload_parameter_value_is_quoted :
    argusToCreatePayload (some c5Model) =
      .ok { Name := some "nm", PlanId := some "pid", Parameter := [("a", "\"b\"")] } ∧
      ("\"b\"" : String) ≠ "b" :=
  ⟨rfl, by decide⟩

/-- C5 as amended: toCreatePayload and toUpdatePayload build payloads whose Name and PlanId
    are the model's name and plan_id, and whose Parameter map has exactly the keys of
    model.Parameters, each key mapped to the String() rendering of the stored element —
    the quoted form for a known string value — rather than to the raw stored string. -/
theorem argusPayloads_render_parameters (model : ArgusModel) :
    (∃ p, argusToCreatePayload (some model) = .ok p ∧
      p.Name = model.Name.valueStringPointer ∧
      p.PlanId = model.PlanId.valueStringPointer ∧
      p.Parameter.map Prod.fst = model.Parameters.elements.map Prod.fst ∧
      ∀ k v, (k, v) ∈ model.Parameters.elements → (k, v.render) ∈ p.Parameter) ∧
    (∃ p, argusToUpdatePayload (some model) = .ok p ∧
      p.Name = model.Name.valueStringPointer ∧
      p.PlanId = model.PlanId.valueStringPointer ∧
      p.Parameter.map Prod.fst = model.Parameters.elements.map Prod.fst ∧
      ∀ k v, (k, v) ∈ model.Parameters.elements → (k, v.render) ∈ p.Parameter) := by
  constructor <;>
    exact ⟨_, rfl, rfl, rfl, by simp [List.map_map],
      fun k v h => List.mem_map_of_mem (fun kv => (kv.1, kv.2.render)) h⟩

/-- Witness for C5's amended theorem at the concrete model with parameter a mapped to b. -/
theorem argusPayloads_render_parameters_witness :
    ∃ p, argusToCreatePayload (some c5Model) = .ok p ∧
      ("a", TFString.render (.value "b")) ∈ p.Parameter := by
  obtain ⟨⟨p, h1, _, _, _, h5⟩, -⟩ := argusPayloads_render_parameters c5Model
  exact ⟨p, h1, h5 "a" (.value "b") (by decide)⟩

theorem dnsMapWrites_eq (rr : DnsRrset) (m : DnsModel) (i : String) :
    dnsMapWrites rr m i = .ok
      { Id := .value (goJoin [m.ProjectId.valueString, m.ZoneId.valueString, i]),
        RecordSetId := stringPointerValue rr.Id,
        ZoneId := m.ZoneId,
        ProjectId := m.ProjectId,
        Active := boolPointerValue rr.Active,
        Comment := stringPointerValue rr.Comment,
        Name := stringPointerValue rr.Name,
        Records :=
          match rr.Records with
          | none => .null
          | some records =>
            .val (records.map fun (rec : DnsRecord) => stringPointerValue rec.Content),
        TTL := toTypeInt64 rr.Ttl,
        Type' := stringPointerValue rr.Type',
        Error := stringPointerValue rr.Error,
        State := stringPointerValue rr.State } := by
  unfold dnsMapWrites
  cases h : rr.Records <;> simp [h]

theorem argusMapWrites_cases (r : InstanceResponse) (m : ArgusModel) (i : String) :
    argusMapWrites r m i = .panics ∨
      ∃ m2, argusMapWrites r m i = .ok m2 ∧
        m2.Id = .value (goJoin [m.ProjectId.valueString, i]) ∧
        m2.InstanceId = .value i ∧ m2.ProjectId = m.ProjectId := by
  unfold argusMapWrites
  rcases r with ⟨rid, rpn, rpi, rn, rps, riu, rdu, rinst⟩
  rcases rinst with _ |
    ⟨g1, g2, g3, g4, raw, m5, m1h, u1, u2, u3, u4, u5, u6, u7, u8, u9, u10⟩
  · rcases rps with _ | ps <;> exact Or.inr ⟨_, rfl, rfl, rfl, rfl⟩
  · rcases raw with _ | raw
    · rcases rps with _ | ps <;> exact Or.inl rfl
    · rcases m5 with _ | m5
      · rcases rps with _ | ps <;> exact Or.inl rfl
      · rcases m1h with _ | m1h
        · rcases rps with _ | ps <;> exact Or.inl rfl
        · rcases rps with _ | ps <;> exact Or.inr ⟨_, rfl, rfl, rfl, rfl⟩

/-- C6: both mapFields return an error exactly when the response (for DNS, also its Rrset)
    is nil, the model is nil, or no entity id is available from the model or the response;
    on an error the model is left unchanged; and a non-empty model id takes precedence over
    an id carried by the response when forming the entity id and composite id. -/
theorem mapFields_error_conditions :
    (∀ r m, (∃ e m0, argusMapFields r m = .err e m0) ↔ argusMapErrCond r m) ∧
    (∀ r m e m0, argusMapFields r m = .err e m0 → m0 = m) ∧
    (∀ rr mm m2, mm.InstanceId.valueString ≠ "" → rr.Id ≠ none →
      argusMapFields (some rr) (some mm) = .ok m2 →
      m2.InstanceId = .value mm.InstanceId.valueString ∧
      m2.Id = .value (goJoin [mm.ProjectId.valueString, mm.InstanceId.valueString])) ∧
    (∀ resp m, (∃ e m0, dnsMapFields resp m = .err e m0) ↔ dnsMapErrCond resp m) ∧
    (∀ resp m e m0, dnsMapFields resp m = .err e m0 → m0 = m) ∧
    (∀ rr mm m2, mm.RecordSetId.valueString ≠ "" → rr.Id ≠ none →
      dnsMapFields (some ⟨some rr⟩) (some mm) = .ok m2 →
      m2.Id = .value (goJoin [mm.ProjectId.valueString, mm.ZoneId.valueString,
        mm.RecordSetId.valueString])) := by
  refine ⟨?_, ?_, ?_, ?_, ?_, ?_⟩
  · intro r m
    constructor
    · rintro ⟨e, m0, h⟩
      rcases r with _ | rr
      · exact Or.inl rfl
      rcases m with _ | mm
      · exact Or.inr (Or.inl rfl)
      simp only [argusMapFields] at h
      by_cases hid : mm.InstanceId.valueString = ""
      · rw [if_neg (by simpa using hid)] at h
        rcases hrid : rr.Id with _ | i
        · exact Or.inr (Or.inr ⟨rr, mm, rfl, rfl, hid, hrid⟩)
        · rw [hrid] at h
          rcases argusMapWrites_cases rr mm i with hp | ⟨m2, hok, -⟩ <;> simp_all
      · rw [if_pos hid] at h
        rcases argusMapWrites_cases rr mm mm.InstanceId.valueString with
          hp | ⟨m2, hok, -⟩ <;> simp_all
    · intro hc
      rcases hc with rfl | hc
      · exact ⟨_, _, rfl⟩
      rcases hc with rfl | ⟨rr, mm, rfl, rfl, hid, hrid⟩
      · rcases r with _ | rr
        · exact ⟨_, _, rfl⟩
        · exact ⟨_, _, rfl⟩
      · refine ⟨"instance id not present", some mm, ?_⟩
        simp only [argusMapFields]
        rw [if_neg (by simpa using hid), hrid]
  · intro r m e m0 h
    rcases r with _ | rr
    · simp only [argusMapFields] at h
      exact (MapOutcome.err.inj h).2.symm
    rcases m with _ | mm
    · simp only [argusMapFields] at h
      exact (MapOutcome.err.inj h).2.symm
    simp only [argusMapFields] at h
    by_cases hid : mm.InstanceId.valueString = ""
    · rw [if_neg (by simpa using hid)] at h
      rcases hrid : rr.Id with _ | i
      · rw [hrid] at h
        exact (MapOutcome.err.inj h).2.symm
      · rw [hrid] at h
        rcases argusMapWrites_cases rr mm i with hp | ⟨m2, hok, -⟩ <;> simp_all
    · rw [if_pos hid] at h
      rcases argusMapWrites_cases rr mm mm.InstanceId.valueString with
        hp | ⟨m2, hok, -⟩ <;> simp_all
  · intro rr mm m2 hne _ h
    simp only [argusMapFields] at h
    rw [if_pos hne] at h
    rcases argusMapWrites_cases rr mm mm.InstanceId.valueString with hp | ⟨m3, hok, h1, h2, -⟩
    · rw [hp] at h
      cases h
    · rw [hok] at h
      cases MapOutcome.ok.inj h
      exact ⟨h2, h1⟩
  · intro resp m
    constructor
    · rintro ⟨e, m0, h⟩
      rcases resp with _ | q
      · exact Or.inl rfl
      obtain ⟨rs⟩ := q
      rcases rs with _ | rr
      · exact Or.inr (Or.inl ⟨⟨none⟩, rfl, rfl⟩)
      rcases m with _ | mm
      · exact Or.inr (Or.inr (Or.inl rfl))
      simp only [dnsMapFields] at h
      by_cases hid : mm.RecordSetId.valueString = ""
      · rw [if_neg (by simpa using hid)] at h
        rcases hrid : rr.Id with _ | i
        · exact Or.inr (Or.inr (Or.inr ⟨⟨some rr⟩, rr, mm, rfl, rfl, rfl, hid, hrid⟩))
        · rw [hrid] at h
          simp [dnsMapWrites_eq] at h
      · rw [if_pos hid, dnsMapWrites_eq] at h
        cases h
    · intro hc
      rcases hc with rfl | hc
      · exact ⟨_, _, rfl⟩
      rcases hc with ⟨q, rfl, hq⟩ | hc
      · obtain ⟨rs⟩ := q
        rcases rs with _ | rr
        · exact ⟨_, _, rfl⟩
        · exact absurd hq (by simp)
      rcases hc with rfl | ⟨q, rr, mm, rfl, hq, rfl, hid, hrid⟩
      · rcases resp with _ | q
        · exact ⟨_, _, rfl⟩
        · obtain ⟨rs⟩ := q
          rcases rs with _ | rr
          · exact ⟨_, _, rfl⟩
          · exact ⟨_, _, rfl⟩
      · obtain ⟨rs⟩ := q
        have hrs : rs = some rr := hq
        subst hrs
        refine ⟨"record set id not present", some mm, ?_⟩
        simp only [dnsMapFields]
        rw [if_neg (by simpa using hid), hrid]
  · intro resp m e m0 h
    rcases resp with _ | q
    · simp only [dnsMapFields] at h
      exact (MapOutcome.err.inj h).2.symm
    obtain ⟨rs⟩ := q
    rcases rs with _ | rr
    · simp only [dnsMapFields] at h
      exact (MapOutcome.err.inj h).2.symm
    rcases m with _ | mm
    · simp only [dnsMapFields] at h
      exact (MapOutcome.err.inj h).2.symm
    simp only [dnsMapFields] at h
    by_cases hid : mm.RecordSetId.valueString = ""
    · rw [if_neg (by simpa using hid)] at h
      rcases hrid : rr.Id with _ | i
      · rw [hrid] at h
        exact (MapOutcome.err.inj h).2.symm
      · rw [hrid] at h
        simp [dnsMapWrites_eq] at h
    · rw [if_pos hid, dnsMapWrites_eq] at h
      cases h
  · intro rr mm m2 hne _ h
    simp only [dnsMapFields] at h
    rw [if_pos hne, dnsMapWrites_eq] at h
    cases MapOutcome.ok.inj h
    rfl

/-- Witness for C6: a nil response makes the Argus mapFields return an error. -/
theorem mapFields_error_conditions_witness :
    ∃ e m0, argusMapFields none none = .err e m0 :=
  (mapFields_error_conditions.1 none none).mpr (Or.inl rfl)

/-- C7 counterexample: mapping a response carrying record-set id j onto a DNS model that
    already holds record-set id x builds the composite id from the precedence-chosen x, but
    then overwrites model.RecordSetId with the response's j, so the id attribute no longer
    equals the comma-join of the post-state key attributes project_id, zone_id and
    record_set_id. -/
theorem dnsMapFields_id_differs_from_post_state_composite :
    (mapOk (dnsMapFields (some c7Response) (some c7Model))).map
        (fun m2 => (m2.Id, m2.ProjectId, m2.ZoneId, m2.RecordSetId)) =
      some (.value "p,z,x", .value "p", .value "z", .value "j") ∧
      ("p,z,x" : String) ≠ goJoin ["p", "z", "j"] :=
  ⟨by decide, by decide⟩

/-- C7 as amended: after every successful mapFields, the id attribute is the comma-join of
    the model's project id (and, for DNS, zone id) with the precedence-chosen entity id; for
    Argus that chosen id also becomes the instance_id attribute, while the DNS record_set_id
    attribute is re-set from the response and can differ from the id inside the composite;
    whenever the components are non-empty and separator-free, the composite is exactly the
    identifier ImportState accepts, recovering those components. -/
theorem mapFields_composite_id_import_roundtrip :
    (∀ rr mm m2, argusMapFields (some rr) (some mm) = .ok m2 →
      ∃ iid, m2.InstanceId = .value iid ∧
        m2.Id = .value (goJoin [mm.ProjectId.valueString, iid]) ∧
        (mm.ProjectId.valueString ≠ "" → iid ≠ "" →
         coreSeparator ∉ mm.ProjectId.valueString.toList → coreSeparator ∉ iid.toList →
         instanceImportState m2.Id.valueString = some (mm.ProjectId.valueString, iid))) ∧
    (∀ rr mm m2, dnsMapFields (some ⟨some rr⟩) (some mm) = .ok m2 →
      ∃ rsid,
        (if mm.RecordSetId.valueString ≠ "" then rsid = mm.RecordSetId.valueString
         else rr.Id = some rsid) ∧
        m2.Id = .value (goJoin [mm.ProjectId.valueString, mm.ZoneId.valueString, rsid]) ∧
        m2.RecordSetId = stringPointerValue rr.Id ∧
        (mm.ProjectId.valueString ≠ "" → mm.ZoneId.valueString ≠ "" → rsid ≠ "" →
         coreSeparator ∉ mm.ProjectId.valueString.toList →
         coreSeparator ∉ mm.ZoneId.valueString.toList → coreSeparator ∉ rsid.toList →
         recordSetImportState m2.Id.valueString =
           some (mm.ProjectId.valueString, mm.ZoneId.valueString, rsid))) := by
  constructor
  · intro rr mm m2 h
    simp only [argusMapFields] at h
    by_cases hid : mm.InstanceId.valueString = ""
    · rw [if_neg (by simpa using hid)] at h
      rcases hrid : rr.Id with _ | i
      · rw [hrid] at h
        exact absurd h (by simp)
      · rw [hrid] at h
        have hw : argusMapWrites rr mm i = MapOutcome.ok m2 := h
        rcases argusMapWrites_cases rr mm i with hp | ⟨m3, hok, hA, hB, -⟩
        · rw [hp] at hw
          cases hw
        · rw [hok] at hw
          cases MapOutcome.ok.inj hw
          refine ⟨i, hB, hA, ?_⟩
          intro h1 h2 h3 h4
          have hvs : m2.Id.valueString = goJoin [mm.ProjectId.valueString, i] := by
            rw [hA]
            rfl
          rw [hvs]
          exact instanceImportState_goJoin _ _ h1 h2 h3 h4
    · rw [if_pos hid] at h
      rcases argusMapWrites_cases rr mm mm.InstanceId.valueString with
        hp | ⟨m3, hok, hA, hB, -⟩
      · rw [hp] at h
        cases h
      · rw [hok] at h
        cases MapOutcome.ok.inj h
        refine ⟨mm.InstanceId.valueString, hB, hA, ?_⟩
        intro h1 h2 h3 h4
        have hvs : m2.Id.valueString = goJoin [mm.ProjectId.valueString,
            mm.InstanceId.valueString] := by
          rw [hA]
          rfl
        rw [hvs]
        exact instanceImportState_goJoin _ _ h1 h2 h3 h4
  · intro rr mm m2 h
    simp only [dnsMapFields] at h
    by_cases hid : mm.RecordSetId.valueString = ""
    · rw [if_neg (by simpa using hid)] at h
      rcases hrid : rr.Id with _ | i
      · rw [hrid] at h
        exact absurd h (by simp)
      · rw [hrid] at h
        have hw : dnsMapWrites rr mm i = MapOutcome.ok m2 := h
        rw [dnsMapWrites_eq] at hw
        cases MapOutcome.ok.inj hw
        refine ⟨i, ?_, rfl, by rw [hrid], ?_⟩
        · rw [if_neg (by simpa using hid)]
        · intro h1 h2 h3 h4 h5 h6
          exact recordSetImportState_goJoin _ _ _ h1 h2 h3 h4 h5 h6
    · rw [if_pos hid] at h
      rw [dnsMapWrites_eq] at h
      cases MapOutcome.ok.inj h
      refine ⟨mm.RecordSetId.valueString, by rw [if_pos hid], rfl, rfl, ?_⟩
      intro h1 h2 h3 h4 h5 h6
      exact recordSetImportState_goJoin _ _ _ h1 h2 h3 h4 h5 h6

/-- Witness for C7's amended theorem at a concrete Argus response and model. -/
theorem mapFields_composite_id_import_roundtrip_witness :
    argusMapFields (some c7wResponse) (some c7wModel) = .ok c7wMapped ∧
      instanceImportState c7wMapped.Id.valueString = some ("p1", "i1") := by
  have hm2 : argusMapFields (some c7wResponse) (some c7wModel) = .ok c7wMapped := by decide
  obtain ⟨iid, hinst, -, himp⟩ :=
    mapFields_composite_id_import_roundtrip.1 c7wResponse c7wModel c7wMapped hm2
  have h2 : TFString.value "i1" = TFString.value iid := hinst
  cases TFString.value.inj h2
  exact ⟨hm2, himp (by decide) (by decide) (by decide) (by decide)⟩

theorem loadPlanId_done (res : Except String PlansResponse) (diags : List String)
    (model : ArgusModel) (hres : ∀ q, res = .ok q → q.Plans ≠ none) :
    ∃ d2 m2, loadPlanId res diags model = .done d2 m2 := by
  rcases res with e | q
  · exact ⟨_, _, rfl⟩
  · obtain ⟨pl⟩ := q
    rcases pl with _ | pl
    · exact absurd rfl (hres ⟨none⟩ rfl)
    · simp only [loadPlanId]
      rcases findPlanId pl model.PlanName.valueString with _ | pid <;> split <;>
        exact ⟨_, _, rfl⟩

/-- C8: every wait-handler invocation carries the provider's fixed timeout (20 minutes for
    Argus instance create and update, 10 minutes for Argus instance delete, 1 minute for each
    DNS record-set create, update and delete), appears at most once per invocation and only
    directly after its asynchronous SDK operation, and once that operation has succeeded the
    wait handler is invoked exactly once. -/
theorem waitHandlers_once_with_fixed_timeouts :
    (∀ env : ArgusCreateEnv,
      ((argusCreate env).1 = [] ∨ (argusCreate env).1 = [.getPlans] ∨
       (argusCreate env).1 = [.getPlans, .createInstance] ∨
       (argusCreate env).1 = [.getPlans, .createInstance, .createInstanceWait 20]) ∧
      (argusCreateLaunched env →
       (argusCreate env).1 = [.getPlans, .createInstance, .createInstanceWait 20])) ∧
    (∀ env : ArgusUpdateEnv,
      ((argusUpdate env).1 = [] ∨ (argusUpdate env).1 = [.getPlans] ∨
       (argusUpdate env).1 = [.getPlans, .updateInstance] ∨
       (argusUpdate env).1 = [.getPlans, .updateInstance, .updateInstanceWait 20]) ∧
      (argusUpdateLaunched env →
       (argusUpdate env).1 = [.getPlans, .updateInstance, .updateInstanceWait 20])) ∧
    (∀ env : ArgusDeleteEnv,
      ((argusDelete env).1 = [] ∨ (argusDelete env).1 = [.deleteInstance] ∨
       (argusDelete env).1 = [.deleteInstance, .deleteInstanceWait 10]) ∧
      (argusDeleteLaunched env →
       (argusDelete env).1 = [.deleteInstance, .deleteInstanceWait 10])) ∧
    (∀ env : DnsCreateEnv,
      ((dnsCreate env).1 = [] ∨ (dnsCreate env).1 = [.createRecordSet] ∨
       (dnsCreate env).1 = [.createRecordSet, .createRecordSetWait 1]) ∧
      (dnsCreateLaunched env →
       (dnsCreate env).1 = [.createRecordSet, .createRecordSetWait 1])) ∧
    (∀ env : DnsUpdateEnv,
      ((dnsUpdate env).1 = [] ∨ (dnsUpdate env).1 = [.updateRecordSet] ∨
       (dnsUpdate env).1 = [.updateRecordSet, .updateRecordSetWait 1] ∨
       (dnsUpdate env).1 = [.updateRecordSet, .updateRecordSetWait 1, .getRecordSet]) ∧
      (dnsUpdateLaunched env → SdkCall.updateRecordSetWait 1 ∈ (dnsUpdate env).1)) ∧
    (∀ env : DnsDeleteEnv,
      ((dnsDelete env).1 = [] ∨
       (dnsDelete env).1 = [.deleteRecordSet, .deleteRecordSetWait 1]) ∧
      (dnsDeleteLaunched env →
       (dnsDelete env).1 = [.deleteRecordSet, .deleteRecordSetWait 1])) := by
  refine ⟨?_, ?_, ?_, ?_, ?_, ?_⟩
  · intro env
    obtain ⟨pd, plan, gp, ci, w⟩ := env
    constructor
    · rcases pd with _ | ⟨d, pd⟩
      · rcases hl : loadPlanId gp [] plan with _ | ⟨d2, m2⟩
        · simp [argusCreate, argusToCreatePayload, hl]
        · rcases ci with e | oiid
          · simp [argusCreate, argusToCreatePayload, hl]
          rcases oiid with _ | iid
          · simp [argusCreate, argusToCreatePayload, hl]
          by_cases hiid : iid = ""
          · simp [argusCreate, argusToCreatePayload, hl, hiid]
          rcases w with e | og
          · simp [argusCreate, argusToCreatePayload, hl, hiid]
          rcases og with _ | got
          · simp [argusCreate, argusToCreatePayload, hl, hiid]
          rcases hmf : argusMapFields (some got) (some m2) with m3 | ⟨e3, m0⟩ | _ <;>
            simp [argusCreate, argusToCreatePayload, hl, hiid, hmf]
      · simp [argusCreate, argusToCreatePayload]
    · rintro ⟨hpd, hplans, iid, hci, hiid⟩
      subst hpd
      subst hci
      obtain ⟨d2, m2, hl⟩ := loadPlanId_done gp [] plan hplans
      rcases w with e | og
      · simp [argusCreate, argusToCreatePayload, hl, hiid]
      rcases og with _ | got
      · simp [argusCreate, argusToCreatePayload, hl, hiid]
      rcases hmf : argusMapFields (some got) (some m2) with m3 | ⟨e3, m0⟩ | _ <;>
        simp [argusCreate, argusToCreatePayload, hl, hiid, hmf]
  · intro env
    obtain ⟨pd, plan, gp, up, w⟩ := env
    constructor
    · rcases pd with _ | ⟨d, pd⟩
      · rcases hl : loadPlanId gp [] plan with _ | ⟨d2, m2⟩
        · simp [argusUpdate, argusToUpdatePayload, hl]
        · rcases up with e | u
          · simp [argusUpdate, argusToUpdatePayload, hl]
          rcases w with e | og
          · simp [argusUpdate, argusToUpdatePayload, hl]
          rcases og with _ | got
          · simp [argusUpdate, argusToUpdatePayload, hl]
          rcases hmf : argusMapFields (some got) (some m2) with m3 | ⟨e3, m0⟩ | _ <;>
            simp [argusUpdate, argusToUpdatePayload, hl, hmf]
      · simp [argusUpdate, argusToUpdatePayload]
    · rintro ⟨hpd, hplans, hup⟩
      subst hpd
      subst hup
      obtain ⟨d2, m2, hl⟩ := loadPlanId_done gp [] plan hplans
      rcases w with e | og
      · simp [argusUpdate, argusToUpdatePayload, hl]
      rcases og with _ | got
      · simp [argusUpdate, argusToUpdatePayload, hl]
      rcases hmf : argusMapFields (some got) (some m2) with m3 | ⟨e3, m0⟩ | _ <;>
        simp [argusUpdate, argusToUpdatePayload, hl, hmf]
  · intro env
    obtain ⟨sd, st, del, w⟩ := env
    constructor
    · rcases sd with _ | ⟨d, sd⟩
      · rcases del with e | u
        · simp [argusDelete]
        rcases w with e2 | u2 <;> simp [argusDelete]
      · simp [argusDelete]
    · rintro ⟨hsd, hdel⟩
      subst hsd
      subst hdel
      rcases w with e2 | u2 <;> simp [argusDelete]
  · intro env
    obtain ⟨pd, plan, cr, w⟩ := env
    constructor
    · rcases pd with _ | ⟨d, pd⟩
      · rcases cr with e | r
        · simp [dnsCreate, dnsToCreatePayload]
        obtain ⟨rs⟩ := r
        rcases rs with _ | rr
        · simp [dnsCreate, dnsToCreatePayload]
        rcases hrid : rr.Id with _ | i
        · simp [dnsCreate, dnsToCreatePayload, hrid]
        rcases w with e | og
        · simp [dnsCreate, dnsToCreatePayload, hrid]
        rcases og with _ | got
        · simp [dnsCreate, dnsToCreatePayload, hrid]
        rcases hmf : dnsMapFields (some got) (some plan) with m3 | ⟨e3, m0⟩ | _ <;>
          simp [dnsCreate, dnsToCreatePayload, hrid, hmf]
      · simp [dnsCreate, dnsToCreatePayload]
    · rintro ⟨hpd, r, rr, i, hcr, hrs, hrid⟩
      subst hpd
      subst hcr
      obtain ⟨rs⟩ := r
      have hrs2 : rs = some rr := hrs
      subst hrs2
      rcases w with e | og
      · simp [dnsCreate, dnsToCreatePayload, hrid]
      rcases og with _ | got
      · simp [dnsCreate, dnsToCreatePayload, hrid]
      rcases hmf : dnsMapFields (some got) (some plan) with m3 | ⟨e3, m0⟩ | _ <;>
        simp [dnsCreate, dnsToCreatePayload, hrid, hmf]
  · intro env
    obtain ⟨pd, plan, up, w, g⟩ := env
    constructor
    · rcases pd with _ | ⟨d, pd⟩
      · rcases up with e | u
        · simp [dnsUpdate, dnsToUpdatePayload]
        rcases w with e | og
        · simp [dnsUpdate, dnsToUpdatePayload]
        rcases og with _ | got
        · simp [dnsUpdate, dnsToUpdatePayload]
        rcases g with e | fetched
        · simp [dnsUpdate, dnsToUpdatePayload]
        rcases hmf : dnsMapFields (some fetched) (some plan) with m3 | ⟨e3, m0⟩ | _ <;>
          simp [dnsUpdate, dnsToUpdatePayload, hmf]
      · simp [dnsUpdate, dnsToUpdatePayload]
    · rintro ⟨hpd, hup⟩
      subst hpd
      subst hup
      rcases w with e | og
      · simp [dnsUpdate, dnsToUpdatePayload]
      rcases og with _ | got
      · simp [dnsUpdate, dnsToUpdatePayload]
      rcases g with e | fetched
      · simp [dnsUpdate, dnsToUpdatePayload]
      rcases hmf : dnsMapFields (some fetched) (some plan) with m3 | ⟨e3, m0⟩ | _ <;>
        simp [dnsUpdate, dnsToUpdatePayload, hmf]
  · intro env
    obtain ⟨sd, st, del, w⟩ := env
    constructor
    · rcases sd with _ | ⟨d, sd⟩
      · rcases del with e | u <;> rcases w with e2 | u2 <;> simp [dnsDelete]
      · simp [dnsDelete]
    · rintro ⟨hsd, hdel⟩
      subst hsd
      subst hdel
      rcases w with e2 | u2 <;> simp [dnsDelete]

/-- Witness for C8 at a concrete Argus Delete oracle whose SDK calls succeed. -/
theorem waitHandlers_once_with_fixed_timeouts_witness :
    (argusDelete c8Env).1 = [.deleteInstance, .deleteInstanceWait 10] :=
  (waitHandlers_once_with_fixed_timeouts.2.2.1 c8Env).2 ⟨rfl, rfl⟩

/-- C9: mapping a DNS record-set response whose Rrset carries an id, a records list, a ttl,
    a name and a comment onto a fresh model and then building the update payload reproduces
    those response fields in the payload — the records in order, then ttl, name and comment
    (a read/update round-trip). -/
theorem dns_read_update_roundtrip (rs : DnsRrset) (i : String) (recs : List DnsRecord)
    (t : Int) (n c : String) (hid : rs.Id = some i) (hrecs : rs.Records = some recs)
    (httl : rs.Ttl = some t) (hname : rs.Name = some n) (hcomment : rs.Comment = some c) :
    ∃ m2 p, dnsMapFields (some ⟨some rs⟩) (some emptyDnsModel) = .ok m2 ∧
      dnsToUpdatePayload (some m2) = .ok p ∧
      p.Records.map RecordPayload.Content = recs.map DnsRecord.Content ∧
      p.Ttl = some t ∧ p.Name = some n ∧ p.Comment = some c := by
  have hcond : ¬ (emptyDnsModel.RecordSetId.valueString ≠ "") := by decide
  simp only [dnsMapFields]
  rw [if_neg hcond]
  simp only [hid]
  rw [dnsMapWrites_eq]
  refine ⟨_, _, rfl, rfl, ?_, ?_, ?_, ?_⟩
  · simp [dnsToUpdatePayload, hrecs, TFList.elements, List.map_map,
      valueStringPointer_stringPointerValue, Function.comp]
  · simp [dnsToUpdatePayload, httl, toTypeInt64, toPtrInt32]
  · simp [dnsToUpdatePayload, hname, stringPointerValue, TFString.valueStringPointer]
  · simp [dnsToUpdatePayload, hcomment, stringPointerValue, TFString.valueStringPointer]

/-- Witness for C9 at a concrete record-set response. -/
theorem dns_read_update_roundtrip_witness :
    ∃ m2 p, dnsMapFields (some ⟨some c9Rrset⟩) (some emptyDnsModel) = .ok m2 ∧
      dnsToUpdatePayload (some m2) = .ok p ∧
      p.Records.map RecordPayload.Content = [some "1.2.3.4"] ∧
      p.Ttl = some 300 ∧ p.Name = some "example.com" ∧ p.Comment = some "hi" := by
  obtain ⟨m2, p, h1, h2, h3, h4, h5, h6⟩ :=
    dns_read_update_roundtrip c9Rrset "r1" [{ Content := some "1.2.3.4" }] 300
      "example.com" "hi" rfl rfl rfl rfl rfl
  exact ⟨m2, p, h1, h2, h3, h4, h5, h6⟩

/-- C10: the DNS mapFields never writes project_id or zone_id, so a successful data-source
    Read leaves the configured project_id and zone_id unchanged in the state it produces,
    writing only the computed attributes and the re-derived record_set_id. -/
theorem dns_read_preserves_inputs :
    (∀ resp mm m2, dnsMapFields (some resp) (some mm) = .ok m2 →
      m2.ProjectId = mm.ProjectId ∧ m2.ZoneId = mm.ZoneId) ∧
    (∀ env st, (dnsDataRead env).2.2 = .stateSet st →
      st.ProjectId = env.Config.ProjectId ∧ st.ZoneId = env.Config.ZoneId) := by
  have hmap : ∀ resp mm m2, dnsMapFields (some resp) (some mm) = .ok m2 →
      m2.ProjectId = mm.ProjectId ∧ m2.ZoneId = mm.ZoneId := by
    intro resp mm m2 h
    obtain ⟨rs⟩ := resp
    rcases rs with _ | rr
    · simp [dnsMapFields] at h
    · simp only [dnsMapFields] at h
      by_cases hid : mm.RecordSetId.valueString = ""
      · rw [if_neg (by simpa using hid)] at h
        rcases hrid : rr.Id with _ | i
        · rw [hrid] at h
          exact absurd h (by simp)
        · rw [hrid] at h
          have hw : dnsMapWrites rr mm i = MapOutcome.ok m2 := h
          rw [dnsMapWrites_eq] at hw
          cases MapOutcome.ok.inj hw
          exact ⟨rfl, rfl⟩
      · rw [if_pos hid, dnsMapWrites_eq] at h
        cases MapOutcome.ok.inj h
        exact ⟨rfl, rfl⟩
  refine ⟨hmap, ?_⟩
  intro env st h
  obtain ⟨cd, cfg, g⟩ := env
  rcases cd with _ | ⟨d, cd⟩
  · rcases g with e | resp
    · simp [dnsDataRead] at h
    · rcases hmf : dnsMapFields (some resp) (some cfg) with m3 | ⟨e3, m0⟩ | _
      · simp [dnsDataRead, hmf] at h
        subst h
        exact hmap resp cfg m3 hmf
      · simp [dnsDataRead, hmf] at h
      · simp [dnsDataRead, hmf] at h
  · simp [dnsDataRead] at h

/-- Witness for C10 at a concrete data-source Read whose GetRecordSet call succeeds. -/
theorem dns_read_preserves_inputs_witness :
    ∃ st, (dnsDataRead c10Env).2.2 = .stateSet st ∧
      st.ProjectId = .value "p" ∧ st.ZoneId = .value "z" := by
  obtain ⟨st, hst⟩ : ∃ st, (dnsDataRead c10Env).2.2 = .stateSet st := ⟨_, rfl⟩
  obtain ⟨h1, h2⟩ := dns_read_preserves_inputs.2 c10Env st hst
  exact ⟨st, hst, h1, h2⟩

end StackitProvider
